import Mathlib

/-!
Verification development for the Network Witness monitor (`nw.py`).

The Python source is shallowly embedded: strings are `String` (manipulated
through their character list `String.data`), Python list/str operations are
translated to explicit recursive functions, the effectful pieces
(pexpect session, baseline files, `sys.exit`) become explicit state passing
and result constructors.
-/

set_option autoImplicit false

namespace NetworkWitness

/-! ## Python string primitives used by `nw.py` -/

/-- Embeds Python `s.startswith(pat)` on character lists: `listStartsWith pat s`
is true when `pat` is an initial segment of `s`. -/
def listStartsWith : List Char → List Char → Bool
  | [], _ => true
  | _ :: _, [] => false
  | p :: ps, c :: cs => p = c && listStartsWith ps cs

/-- Embeds Python substring membership `pat in s` on character lists. -/
def listContainsSub (pat : List Char) : List Char → Bool
  | [] => pat.isEmpty
  | c :: cs => listStartsWith pat (c :: cs) || listContainsSub pat cs

/-- Embeds `host.replace(':', '__')` (nw.py lines 166 and 194): every colon
becomes a double underscore. -/
def replaceColonDU : List Char → List Char
  | [] => []
  | c :: cs => if c = ':' then '_' :: '_' :: replaceColonDU cs else c :: replaceColonDU cs

/-- Embeds `host.replace('__', ':')` (nw.py line 216): left-to-right,
non-overlapping replacement of each double underscore by a colon. -/
def replaceDUColon : List Char → List Char
  | [] => []
  | [c] => [c]
  | c1 :: c2 :: cs =>
    if c1 = '_' ∧ c2 = '_' then ':' :: replaceDUColon cs
    else c1 :: replaceDUColon (c2 :: cs)

/-- Embeds `host.replace(':', ' ')` (nw.py line 76): the dialable endpoint form. -/
def replaceColonSpace : List Char → List Char
  | [] => []
  | c :: cs => (if c = ':' then ' ' else c) :: replaceColonSpace cs

/-- Embeds `host.replace(' ', ':')` (nw.py line 121). -/
def replaceSpaceColon : List Char → List Char
  | [] => []
  | c :: cs => (if c = ' ' then ':' else c) :: replaceSpaceColon cs

/-- Embeds Python `s.split(',')` (nw.py lines 287 and 323): splitting on every
comma, keeping empty fields, so the number of fields is one more than the
number of commas. -/
def splitOnComma : List Char → List (List Char)
  | [] => [[]]
  | c :: cs =>
    match splitOnComma cs with
    | [] => [[c]]
    | f :: rest => if c = ',' then [] :: f :: rest else (c :: f) :: rest

/-- Embeds `host.rstrip("\r\n")` (nw.py lines 286 and 322): dropping trailing
carriage returns and newlines. -/
def rstripCRLF (s : List Char) : List Char :=
  (s.reverse.dropWhile (fun c => c = '\r' ∨ c = '\n')).reverse

/-! ## Diff & Alert Engine (`checkSwitchConfig`, nw.py lines 205-223) -/

/-- Embeds the hard-coded suppression predicate of nw.py line 213:
`"FastEthernet0/2 " not in currentCfgLine` guards the alert, so a fresh line
is suppressed exactly when it contains `"FastEthernet0/2 "` (with the
trailing space) as a substring. -/
def suppressedLine (currentCfgLine : String) : Bool :=
  listContainsSub "FastEthernet0/2 ".data currentCfgLine.data

/-- One observable outcome of the per-line comparison loop body
(nw.py lines 208-221): either an alert (`alertUser` + prints + `logger.warn`)
or the low-severity `logger.debug` record of a suppressed mismatch. -/
inductive LineOutcome where
  | alert (lineIndex : Nat) (expectedLine actualLine : String)
  | suppressedLog (lineIndex : Nat) (actualLine : String)
  deriving DecidableEq, Repr

/-- The index carried by a `LineOutcome`. -/
def outcomeIndex : LineOutcome → Nat
  | .alert i _ _ => i
  | .suppressedLog i _ => i

/-- Embeds the body of the comparison loop (nw.py lines 208-221) for the pair
at position `i` of `zip(currentSwitchConfig, knownGoodConfig)`:
`if currentCfgLine != goodCfgLine`, then either alert or log the suppressed
mismatch at debug severity, depending on the suppression substring test. -/
def compareLine (i : Nat) (currentCfgLine goodCfgLine : String) : Option LineOutcome :=
  if currentCfgLine ≠ goodCfgLine then
    if suppressedLine currentCfgLine = false then
      some (.alert i goodCfgLine currentCfgLine)
    else
      some (.suppressedLog i currentCfgLine)
  else none

/-- Embeds the loop `for currentCfgLine, goodCfgLine in zip(currentSwitchConfig,
knownGoodConfig)` (nw.py line 207): `zip` truncates to the shorter list, and
`k` tracks the position of the current pair. -/
def compareLines (k : Nat) : List String → List String → List LineOutcome
  | [], _ => []
  | _, [] => []
  | cur :: cs, good :: gs =>
    match compareLine k cur good with
    | none => compareLines (k + 1) cs gs
    | some o => o :: compareLines (k + 1) cs gs

/-- Embeds the top of the comparison (nw.py lines 205-223): the whole-list
equality test `if currentSwitchConfig != knownGoodConfig` short-circuits the
loop, so equal transcripts produce no outcome at all. -/
def diffOutcomes (currentSwitchConfig knownGoodConfig : List String) : List LineOutcome :=
  if currentSwitchConfig = knownGoodConfig then []
  else compareLines 0 currentSwitchConfig knownGoodConfig

/-- The ChangeEvent record of the spec: `lineIndex`, `expectedLine` (baseline),
`actualLine` (fresh), for one unsuppressed mismatch. -/
structure ChangeEvent where
  lineIndex : Nat
  expectedLine : String
  actualLine : String
  deriving DecidableEq, Repr

/-- Only the alert branch (nw.py lines 215-219) surfaces a ChangeEvent; the
suppressed branch is a debug log only. -/
def outcomeEvent : LineOutcome → Option ChangeEvent
  | .alert i good cur => some ⟨i, good, cur⟩
  | .suppressedLog _ _ => none

/-- The ChangeEvents produced by one run of the Diff & Alert Engine on a fresh
transcript `currentSwitchConfig` against the baseline `knownGoodConfig`. -/
def changeEvents (currentSwitchConfig knownGoodConfig : List String) : List ChangeEvent :=
  (diffOutcomes currentSwitchConfig knownGoodConfig).filterMap outcomeEvent

/-! ## HostKey encodings -/

/-- The baseline file name for a host (nw.py lines 166/169 and 194/199):
`'switch_known_good_' + host.replace(':', '__') + '.txt'`. -/
def baselineName (host : String) : String :=
  "switch_known_good_" ++ (⟨replaceColonDU host.data⟩ : String) ++ ".txt"

/-! ## Host Registry parsing (`main`, nw.py lines 287 and 323) -/

/-- One parsed registry record: `host, username, password, friendlyName =
host.split(',')`. -/
structure HostRecord where
  address : String
  username : String
  password : String
  friendlyName : String
  deriving DecidableEq, Repr

/-- Embeds the unpacking `host, username, password, friendlyName =
host.split(',')`: exactly four comma-separated fields parse; any other field
count raises `ValueError`, embedded as `none`. -/
def parseRegistryLine (l : List Char) : Option HostRecord :=
  match splitOnComma l with
  | [a, u, p, f] => some ⟨⟨a⟩, ⟨u⟩, ⟨p⟩, ⟨f⟩⟩
  | _ => none

/-! ## `checkSwitchConfig` with its environment (nw.py lines 176-223)

The effectful collaborators are passed explicitly: `fetch` maps a host to the
transcript `getSwitchConfig` would return (`none` embeds its `False` return on
connection/negotiation failure), and `store` maps a baseline file name to its
stored transcript (`none` embeds the `IOError` of a missing file). -/

/-- The observable result of one `checkSwitchConfig` call. `fetchFailed` is the
early `return False` (line 190); `missingBaseline` is the
`logger.critical` + `sys.exit(1)` path (lines 201-203), which terminates the
whole process; `compared` carries the per-line outcomes of the diff. -/
inductive CheckResult where
  | fetchFailed
  | missingBaseline
  | compared (outcomes : List LineOutcome)
  deriving DecidableEq, Repr

/-- Embeds `checkSwitchConfig` (nw.py lines 176-223): fetch the current config
(early `False` on failure), open the baseline file named from the host
(`sys.exit(1)` if missing), then run the comparison of lines 205-223. -/
def checkSwitchConfig (fetch store : String → Option (List String)) (host : String) :
    CheckResult :=
  match fetch host with
  | none => .fetchFailed
  | some currentSwitchConfig =>
    match store (baselineName host) with
    | none => .missingBaseline
    | some knownGoodConfig => .compared (diffOutcomes currentSwitchConfig knownGoodConfig)

/-! ## Monitoring loop over registry lines (`main`, nw.py lines 317-337) -/

/-- One step of the monitoring loop: a malformed line is logged and skipped
(`except ValueError ... pass`, lines 330-333), a well-formed one is checked. -/
inductive MonitorStep where
  | malformedLine (line : String)
  | hostChecked (host : String) (r : CheckResult)
  deriving DecidableEq, Repr

/-- Embeds one monitoring pass over the lines of `switchHosts.txt`
(nw.py lines 318-333). The boolean is true when the process exited:
`checkSwitchConfig`'s missing-baseline `sys.exit(1)` is a `SystemExit`, caught
by none of the surrounding handlers (`ValueError`, `KeyboardInterrupt`,
`IOError`, `Exception`), so it ends the process and no later line is
processed. -/
def runMonitorLines (fetch store : String → Option (List String)) :
    List String → List MonitorStep × Bool
  | [] => ([], false)
  | l :: ls =>
    match parseRegistryLine (rstripCRLF l.data) with
    | none =>
      let r := runMonitorLines fetch store ls
      (.malformedLine ⟨rstripCRLF l.data⟩ :: r.1, r.2)
    | some rec =>
      match checkSwitchConfig fetch store rec.address with
      | .missingBaseline => ([.hostChecked rec.address .missingBaseline], true)
      | res =>
        let r := runMonitorLines fetch store ls
        (.hostChecked rec.address res :: r.1, r.2)

/-! ## Baseline capture (`createSwitchBaseline`, nw.py lines 151-174, and the
`--swbaseline` branch of `main`, nw.py lines 280-310) -/

/-- Embeds `createSwitchBaseline` (nw.py lines 151-174): when
`getSwitchConfig` returns `False` the function logs an error and returns
`False` before the baseline file is opened, leaving the store untouched;
otherwise the file named from the host is (over)written with the fetched
output and the function returns `True`. -/
def createSwitchBaseline (fetch store : String → Option (List String)) (host : String) :
    Bool × (String → Option (List String)) :=
  match fetch host with
  | none => (false, store)
  | some baselineOutput =>
    (true, fun f => if f = baselineName host then some baselineOutput else store f)

/-- How the `--swbaseline` branch of `main` ends: `exited code` embeds
`sys.exit(code)`, `fellThroughToMonitoring` embeds control reaching the
`while True` monitoring loop at nw.py line 314. -/
inductive CaptureEnd where
  | exited (code : Nat)
  | fellThroughToMonitoring
  deriving DecidableEq, Repr

/-- Embeds the `for host in hostsFile` loop of the `--swbaseline` branch
(nw.py lines 285-291): each well-formed line is captured in order; a malformed
line raises `ValueError`, which the handler at line 295 only logs, after which
control falls through to the monitoring loop; if every line parses, the branch
ends with `sys.exit(1)` (line 291). -/
def runBaselineLines (fetch : String → Option (List String)) :
    (String → Option (List String)) → List String →
    (String → Option (List String)) × CaptureEnd
  | store, [] => (store, .exited 1)
  | store, l :: ls =>
    match parseRegistryLine (rstripCRLF l.data) with
    | none => (store, .fellThroughToMonitoring)
    | some rec => runBaselineLines fetch (createSwitchBaseline fetch store rec.address).2 ls

/-- Embeds the whole `--swbaseline` branch (nw.py lines 283-310): a missing
`switchHosts_baseline.txt` (`hostsFile = none`) raises `IOError`, handled by
`sys.exit(1)` at line 301; otherwise the capture loop runs. -/
def runBaselineMode (fetch store : String → Option (List String))
    (hostsFile : Option (List String)) :
    (String → Option (List String)) × CaptureEnd :=
  match hostsFile with
  | none => (store, .exited 1)
  | some lines => runBaselineLines fetch store lines

/-! ## Prompt negotiation (`connectTelnet`, nw.py lines 96-118)

Each `pexpect.expect` call is embedded as a substring search over the text the
device made available during that call's timeout window: `w1` is the text seen
by the first `expect(['>', '#'])` (line 97), `w2` the additional text arriving
while `expect("RETURN")` (line 102) waits on the same buffer, and `w3` the
text arriving after the recovery carriage return for the second
`expect(['>', '#'])` (line 106). A pattern that never appears in the window is
a pexpect timeout, which raises. -/

/-- Embeds `expect(['>', '#'])` matching: either prompt terminator anywhere in
the received text (with `searchwindowsize=-1`, the whole buffer). -/
def hasPromptTerminator (s : List Char) : Bool :=
  s.contains '>' || s.contains '#'

/-- Embeds `expect("RETURN")` matching (nw.py line 102). -/
def hasReturnMarker (s : List Char) : Bool :=
  listContainsSub "RETURN".data s

/-- The text windows a device makes available to the three expect calls of the
prompt-negotiation phase. -/
structure PromptWindows where
  w1 : String
  w2 : String
  w3 : String
  deriving DecidableEq, Repr

/-- How the prompt-negotiation phase ends. `failedNonStandardTerminator` is
the inner `return False` of nw.py lines 108-110 with its "may not be using >
or #" diagnostic; `failedConnectionError` is the exception from
`expect("RETURN")` at line 102 escaping to the outer handler at line 120
("Could not connect", `return False`). -/
inductive NegotiateResult where
  | promptReached
  | failedNonStandardTerminator
  | failedConnectionError
  deriving DecidableEq, Repr

/-- The observable trace of one prompt-negotiation phase: its result, the
number of recovery carriage returns sent (line 103), and the number of
`expect(['>', '#'])` prompt-detection attempts made (lines 97 and 106). -/
structure NegotiationTrace where
  result : NegotiateResult
  crSent : Nat
  promptAttempts : Nat
  deriving DecidableEq, Repr

/-- Embeds nw.py lines 96-110: try `expect(['>', '#'])` on `w1`; on timeout,
`expect("RETURN")` on the buffer `w1 ++ w2` — if that times out too, the
exception escapes to the outer handler; if it matches, send one `\r` and try
`expect(['>', '#'])` exactly once more on `w3`, returning `False` with the
non-standard-terminator diagnostic if it also times out. -/
def awaitPrompt (w : PromptWindows) : NegotiationTrace :=
  if hasPromptTerminator w.w1.data then
    ⟨.promptReached, 0, 1⟩
  else if hasReturnMarker (w.w1.data ++ w.w2.data) then
    if hasPromptTerminator w.w3.data then ⟨.promptReached, 1, 2⟩
    else ⟨.failedNonStandardTerminator, 1, 2⟩
  else ⟨.failedConnectionError, 0, 1⟩

/-! ## Lemmas about the comparison loop -/

theorem compareLine_self (k : Nat) (s : String) : compareLine k s s = none := by
  simp [compareLine]

theorem compareLines_self (k : Nat) (cs : List String) : compareLines k cs cs = [] := by
  induction cs generalizing k with
  | nil => rfl
  | cons c cs ih => simp [compareLines, compareLine_self, ih]

theorem outcomeIndex_compareLine {k : Nat} {cur good : String} {o : LineOutcome}
    (h : compareLine k cur good = some o) : outcomeIndex o = k := by
  rw [compareLine] at h
  split at h
  · split at h
    · simp only [Option.some.injEq] at h
      subst h; rfl
    · simp only [Option.some.injEq] at h
      subst h; rfl
  · exact absurd h (by simp)

theorem mem_compareLines_bound {k : Nat} {cs gs : List String} {o : LineOutcome}
    (h : o ∈ compareLines k cs gs) :
    k ≤ outcomeIndex o ∧ outcomeIndex o < k + min cs.length gs.length := by
  induction cs generalizing gs k with
  | nil => simp [compareLines] at h
  | cons c cs ih =>
    cases gs with
    | nil => simp [compareLines] at h
    | cons g gs =>
      rw [compareLines] at h
      cases hcl : compareLine k c g with
      | none =>
        rw [hcl] at h
        have := ih h
        simp only [List.length_cons]
        omega
      | some p =>
        rw [hcl] at h
        rcases List.mem_cons.mp h with rfl | hmem
        · have := outcomeIndex_compareLine hcl
          simp only [List.length_cons]
          omega
        · have := ih hmem
          simp only [List.length_cons]
          omega

theorem exists_of_mem_compareLines {k : Nat} {cs gs : List String} {o : LineOutcome}
    (h : o ∈ compareLines k cs gs) :
    ∃ j cur good, cs.get? j = some cur ∧ gs.get? j = some good ∧
      compareLine (k + j) cur good = some o := by
  induction cs generalizing gs k with
  | nil => simp [compareLines] at h
  | cons c cs ih =>
    cases gs with
    | nil => simp [compareLines] at h
    | cons g gs =>
      rw [compareLines] at h
      cases hcl : compareLine k c g with
      | none =>
        rw [hcl] at h
        obtain ⟨j, cur, good, hc, hg, he⟩ := ih h
        refine ⟨j + 1, cur, good, by simpa using hc, by simpa using hg, ?_⟩
        have : k + (j + 1) = k + 1 + j := by omega
        rw [this]
        exact he
      | some p =>
        rw [hcl] at h
        rcases List.mem_cons.mp h with rfl | hmem
        · exact ⟨0, c, g, rfl, rfl, by simpa using hcl⟩
        · obtain ⟨j, cur, good, hc, hg, he⟩ := ih hmem
          refine ⟨j + 1, cur, good, by simpa using hc, by simpa using hg, ?_⟩
          have : k + (j + 1) = k + 1 + j := by omega
          rw [this]
          exact he

theorem mem_compareLines_of_get {k j : Nat} {cs gs : List String} {cur good : String}
    {o : LineOutcome} (hc : cs.get? j = some cur) (hg : gs.get? j = some good)
    (h : compareLine (k + j) cur good = some o) : o ∈ compareLines k cs gs := by
  induction j generalizing cs gs k with
  | zero =>
    cases cs with
    | nil => simp at hc
    | cons c cs =>
      cases gs with
      | nil => simp at hg
      | cons g gs =>
        simp only [List.get?_cons_zero, Option.some.injEq] at hc hg
        subst hc; subst hg
        rw [compareLines, show k + 0 = k from rfl] at *
        rw [h]
        exact List.mem_cons_self _ _
  | succ n ih =>
    cases cs with
    | nil => simp at hc
    | cons c cs =>
      cases gs with
      | nil => simp at hg
      | cons g gs =>
        simp only [List.get?_cons_succ] at hc hg
        rw [compareLines]
        have he : compareLine (k + 1 + n) cur good = some o := by
          have : k + 1 + n = k + (n + 1) := by omega
          rw [this]
          exact h
        cases hcl : compareLine k c g with
        | none => exact ih hc hg he
        | some p => exact List.mem_cons_of_mem _ (ih hc hg he)

theorem compareLines_eq_single {cs gs : List String} {k i : Nat} {cur good : String}
    (hc : cs.get? i = some cur) (hg : gs.get? i = some good)
    (hne : cur ≠ good) (hsup : suppressedLine cur = false)
    (hagree : ∀ j, j ≠ i → cs.get? j = gs.get? j) :
    compareLines k cs gs = [.alert (k + i) good cur] := by
  induction cs generalizing gs k i with
  | nil => simp at hc
  | cons c cs ih =>
    cases gs with
    | nil => simp at hg
    | cons g gs =>
      cases i with
      | zero =>
        simp only [List.get?_cons_zero, Option.some.injEq] at hc hg
        subst hc; subst hg
        have htail : cs = gs := by
          apply List.ext_get?_iff.mpr
          intro n
          simpa using hagree (n + 1) (by omega)
        subst htail
        simp [compareLines, compareLine, hne, hsup, compareLines_self]
      | succ n =>
        have hhead : c = g := by
          simpa using hagree 0 (by omega)
        subst hhead
        simp only [List.get?_cons_succ] at hc hg
        have hagree' : ∀ j, j ≠ n → cs.get? j = gs.get? j := by
          intro j hj
          simpa using hagree (j + 1) (by omega)
        have hrec : compareLines (k + 1) cs gs = [.alert (k + 1 + n) good cur] :=
          ih hc hg hagree'
        rw [compareLines, compareLine_self, hrec]
        have : k + 1 + n = k + (n + 1) := by omega
        rw [this]

/-! ## Lemmas about the HostKey encodings -/

theorem replaceDUColon_cons_of_ne {c : Char} (rest : List Char) (h : ¬c = '_') :
    replaceDUColon (c :: rest) = c :: replaceDUColon rest := by
  cases rest with
  | nil => rfl
  | cons r rs =>
    rw [replaceDUColon, if_neg]
    intro hand
    exact h hand.1

theorem colon_du_roundtrip : ∀ {cs : List Char}, '_' ∉ cs →
    replaceDUColon (replaceColonDU cs) = cs := by
  intro cs
  induction cs with
  | nil => intro _; rfl
  | cons c cs ih =>
    intro h
    rw [List.mem_cons] at h
    push_neg at h
    obtain ⟨h1, h2⟩ := h
    by_cases hcc : c = ':'
    · subst hcc
      rw [replaceColonDU, if_pos rfl, replaceDUColon, if_pos ⟨rfl, rfl⟩, ih h2]
    · rw [replaceColonDU, if_neg hcc, replaceDUColon_cons_of_ne _ (fun e => h1 e.symm), ih h2]

theorem colon_space_roundtrip : ∀ {cs : List Char}, ' ' ∉ cs →
    replaceSpaceColon (replaceColonSpace cs) = cs := by
  intro cs
  induction cs with
  | nil => intro _; rfl
  | cons c cs ih =>
    intro h
    rw [List.mem_cons] at h
    push_neg at h
    obtain ⟨h1, h2⟩ := h
    by_cases hcc : c = ':'
    · subst hcc
      simp [replaceColonSpace, replaceSpaceColon, ih h2]
    · have hcs : ¬c = ' ' := fun e => h1 e.symm
      simp [replaceColonSpace, replaceSpaceColon, hcc, hcs, ih h2]

/-! ## Claim theorems -/

/-- Claim C2 (confirmed): comparing a transcript against a baseline equal to it
as a whole ordered sequence produces no ChangeEvent and not even a per-line
outcome (the equality fast path of nw.py line 205 short-circuits the loop),
regardless of the transcript's content. -/
theorem equal_transcripts_no_outcomes (t : List String) :
    diffOutcomes t t = [] ∧ changeEvents t t = [] := by
  constructor <;> simp [diffOutcomes, changeEvents]

/-- Claim C1 counterexample: a fresh and a baseline transcript of equal length
that differ at exactly one index (here index 0, their only index) for which
the engine produces no ChangeEvent at all, because the fresh line contains the
suppression substring `"FastEthernet0/2 "`. -/
theorem suppressed_single_diff_no_event :
    (["FastEthernet0/2 down"] : List String).length =
      (["FastEthernet0/1 up"] : List String).length ∧
    ("FastEthernet0/2 down" : String) ≠ "FastEthernet0/1 up" ∧
    changeEvents ["FastEthernet0/2 down"] ["FastEthernet0/1 up"] = [] :=
  ⟨rfl, by decide, by decide⟩

/-- Claim C1 (amended): for a fresh transcript and a baseline of equal length
that differ at exactly one index, if the fresh line at that index does not
contain the suppression substring, exactly one ChangeEvent is produced, with
`lineIndex` that index, `expectedLine` the baseline line and `actualLine` the
fresh line. -/
theorem single_diff_single_event (current known : List String) (i : Nat)
    (cur good : String) (_hlen : current.length = known.length)
    (hc : current.get? i = some cur) (hk : known.get? i = some good)
    (hne : cur ≠ good) (hsup : suppressedLine cur = false)
    (hagree : ∀ j, j ≠ i → current.get? j = known.get? j) :
    changeEvents current known = [⟨i, good, cur⟩] := by
  have hnelist : current ≠ known := by
    intro e
    apply hne
    have : some cur = some good := by rw [← hc, e, hk]
    exact Option.some.inj this
  rw [changeEvents, diffOutcomes, if_neg hnelist,
    compareLines_eq_single hc hk hne hsup hagree]
  simp [outcomeEvent]

/-- Witness for the amended C1 at a concrete pair of transcripts. -/
theorem single_diff_single_event_witness :
    changeEvents ["alpha", "fresh"] ["alpha", "base"] = [⟨1, "base", "fresh"⟩] :=
  single_diff_single_event ["alpha", "fresh"] ["alpha", "base"] 1 "fresh" "base" rfl rfl rfl
    (by decide) (by decide)
    (by
      intro j hj
      match j with
      | 0 => rfl
      | 1 => exact absurd rfl hj
      | n + 2 => rfl)

/-- Claim C3 (confirmed): for baseline `["A","B","C"]` and fresh
`["A","X","B","C"]` the engine reports exactly the cascade of mismatches at
index 1 (B vs X) and index 2 (C vs B); and in general every outcome of the
positional comparison has its index below the shorter transcript's length. -/
theorem cascade_bounded_by_shorter :
    changeEvents ["A", "X", "B", "C"] ["A", "B", "C"] =
      [⟨1, "B", "X"⟩, ⟨2, "C", "B"⟩] ∧
    ∀ (current known : List String) (o : LineOutcome),
      o ∈ diffOutcomes current known →
      outcomeIndex o < min current.length known.length := by
  constructor
  · decide
  · intro current known o ho
    rw [diffOutcomes] at ho
    split at ho
    · simp at ho
    · have := mem_compareLines_bound ho
      omega

/-- Witness for C3's bound at a concrete outcome of the example diff. -/
theorem cascade_bounded_by_shorter_witness :
    outcomeIndex (.alert 1 "B" "X") <
      min (["A", "X", "B", "C"] : List String).length
        (["A", "B", "C"] : List String).length :=
  cascade_bounded_by_shorter.2 ["A", "X", "B", "C"] ["A", "B", "C"] _ (by decide)

/-- Claim C4 (confirmed): a mismatching pair whose fresh line contains the
suppression substring produces no ChangeEvent at that index — only the
low-severity `logger.debug` record, which never surfaces as an event. -/
theorem suppression_no_event (current known : List String) (i : Nat)
    (cur good : String)
    (hc : current.get? i = some cur) (hk : known.get? i = some good)
    (hne : cur ≠ good) (hsup : suppressedLine cur = true) :
    (∀ e ∈ changeEvents current known, e.lineIndex ≠ i) ∧
    LineOutcome.suppressedLog i cur ∈ diffOutcomes current known ∧
    outcomeEvent (LineOutcome.suppressedLog i cur) = none := by
  have hnelist : current ≠ known := by
    intro e
    apply hne
    have : some cur = some good := by rw [← hc, e, hk]
    exact Option.some.inj this
  refine ⟨?_, ?_, rfl⟩
  · intro e he hei
    rw [changeEvents, List.mem_filterMap] at he
    obtain ⟨o, ho, hoe⟩ := he
    cases o with
    | suppressedLog _ _ => simp [outcomeEvent] at hoe
    | alert j g c =>
      simp only [outcomeEvent, Option.some.injEq] at hoe
      subst hoe
      simp only at hei
      subst hei
      rw [diffOutcomes, if_neg hnelist] at ho
      obtain ⟨j', cur', good', hc', hg', hcl⟩ := exists_of_mem_compareLines ho
      have hj : j = j' := by
        have := outcomeIndex_compareLine hcl
        simpa [outcomeIndex] using this
      subst hj
      rw [hc'] at hc
      rw [hg'] at hk
      rw [Option.some.inj hc, Option.some.inj hk] at hcl
      rw [compareLine, if_pos hne] at hcl
      rw [hsup] at hcl
      simp at hcl
  · rw [diffOutcomes, if_neg hnelist]
    apply mem_compareLines_of_get hc hk
    simp [compareLine, hne, hsup]

/-- Witness for C4 at a concrete suppressed mismatch. -/
theorem suppression_no_event_witness :
    LineOutcome.suppressedLog 0 "FastEthernet0/2 tv" ∈
      diffOutcomes ["FastEthernet0/2 tv"] ["FastEthernet0/2 up"] :=
  (suppression_no_event ["FastEthernet0/2 tv"] ["FastEthernet0/2 up"] 0
    "FastEthernet0/2 tv" "FastEthernet0/2 up" rfl rfl (by decide) (by decide)).2.1

/-- Claim C5 counterexample: a two-host cycle whose first host has no baseline.
The missing baseline is reported distinctly and produces no per-line events,
but `sys.exit(1)` ends the process, so the second host — which has a valid
baseline and would compare cleanly — is never processed in the cycle. -/
theorem missing_baseline_aborts_cycle_cex :
    runMonitorLines
      (fun h => if h = "10.0.0.2:23" then some ["cfg2"] else some ["cfg1"])
      (fun f => if f = baselineName "10.0.0.2:23" then some ["cfg2"] else none)
      ["10.0.0.1:23,u,p,sw1", "10.0.0.2:23,u,p,sw2"] =
    ([.hostChecked "10.0.0.1:23" .missingBaseline], true) := by
  decide

/-- Claim C5 (amended): a missing baseline is reported as the distinct
`missingBaseline` result — not a fetch failure and not any comparison result,
so never per-line ChangeEvents — but it is fatal to the whole process
(`sys.exit(1)`), so the remaining hosts of the cycle are not processed. -/
theorem missing_baseline_fatal_process (fetch store : String → Option (List String))
    (l : String) (ls : List String) (rec : HostRecord) (cur : List String)
    (hp : parseRegistryLine (rstripCRLF l.data) = some rec)
    (hf : fetch rec.address = some cur)
    (hs : store (baselineName rec.address) = none) :
    checkSwitchConfig fetch store rec.address = CheckResult.missingBaseline ∧
    (∀ out, CheckResult.missingBaseline ≠ CheckResult.compared out) ∧
    CheckResult.missingBaseline ≠ CheckResult.fetchFailed ∧
    runMonitorLines fetch store (l :: ls) =
      ([MonitorStep.hostChecked rec.address CheckResult.missingBaseline], true) := by
  have hcheck : checkSwitchConfig fetch store rec.address = .missingBaseline := by
    rw [checkSwitchConfig, hf, hs]
  refine ⟨hcheck, fun out => by simp, by simp, ?_⟩
  simp only [runMonitorLines, hp, hcheck]

/-- Witness for the amended C5 at a concrete one-host registry. -/
theorem missing_baseline_fatal_process_witness :
    runMonitorLines (fun _ => some ["c"]) (fun _ => none) ["h:1,u,p,n"] =
      ([MonitorStep.hostChecked "h:1" CheckResult.missingBaseline], true) :=
  (missing_baseline_fatal_process (fun _ => some ["c"]) (fun _ => none) "h:1,u,p,n" []
    ⟨"h:1", "u", "p", "n"⟩ ["c"] (by decide) rfl rfl).2.2.2

/-- Claim C6 counterexample: a session whose first prompt wait times out and
that never shows the "press RETURN" pattern either. Contrary to the claim, no
carriage return is sent and no second prompt-detection attempt is made: the
`expect("RETURN")` exception escapes to the generic connection-failure
handler. -/
theorem no_return_marker_no_cr_cex :
    (awaitPrompt ⟨"login garbage", "", ""⟩).crSent = 0 ∧
    (awaitPrompt ⟨"login garbage", "", ""⟩).promptAttempts = 1 ∧
    (awaitPrompt ⟨"login garbage", "", ""⟩).result =
      NegotiateResult.failedConnectionError := by
  refine ⟨by decide, by decide, by decide⟩

/-- Claim C6 (amended): on a first prompt timeout the negotiator looks for the
"press return" pattern; if it is found, exactly one carriage return is sent
and prompt detection is re-entered exactly once, failing with the
non-standard-terminator diagnostic if that second attempt also times out; if
the pattern is not found, negotiation fails through the generic
connection-failure handler with no carriage return sent. Either way the retry
budget is bounded: at most two prompt attempts and at most one carriage
return. -/
theorem prompt_retry_bounded (w : PromptWindows)
    (h1 : hasPromptTerminator w.w1.data = false) :
    (hasReturnMarker (w.w1.data ++ w.w2.data) = true →
      (awaitPrompt w).crSent = 1 ∧ (awaitPrompt w).promptAttempts = 2 ∧
      (hasPromptTerminator w.w3.data = false →
        (awaitPrompt w).result = NegotiateResult.failedNonStandardTerminator)) ∧
    (hasReturnMarker (w.w1.data ++ w.w2.data) = false →
      (awaitPrompt w).crSent = 0 ∧
      (awaitPrompt w).result = NegotiateResult.failedConnectionError) ∧
    (awaitPrompt w).promptAttempts ≤ 2 ∧ (awaitPrompt w).crSent ≤ 1 := by
  have hA : awaitPrompt w =
      (if hasReturnMarker (w.w1.data ++ w.w2.data) then
        (if hasPromptTerminator w.w3.data then
          (⟨.promptReached, 1, 2⟩ : NegotiationTrace)
         else ⟨.failedNonStandardTerminator, 1, 2⟩)
       else ⟨.failedConnectionError, 0, 1⟩) := by
    rw [awaitPrompt, if_neg (by simp [h1])]
  refine ⟨?_, ?_, ?_, ?_⟩
  · intro hr
    rw [hA, if_pos hr]
    by_cases h3 : hasPromptTerminator w.w3.data = true
    · rw [if_pos h3]
      exact ⟨rfl, rfl, fun hc => absurd h3 (by simp [hc])⟩
    · rw [if_neg h3]
      exact ⟨rfl, rfl, fun _ => rfl⟩
  · intro hr
    rw [hA, if_neg (by simp [hr])]
    exact ⟨rfl, rfl⟩
  · rw [hA]
    split
    · split <;> decide
    · decide
  · rw [hA]
    split
    · split <;> decide
    · decide

/-- Witness for the amended C6 at a concrete "press RETURN" session whose
second prompt attempt also times out. -/
theorem prompt_retry_bounded_witness :
    (awaitPrompt ⟨"Press RETURN to get started", "", "still no terminator"⟩).crSent = 1 ∧
    (awaitPrompt ⟨"Press RETURN to get started", "", "still no terminator"⟩).result =
      NegotiateResult.failedNonStandardTerminator := by
  have h := prompt_retry_bounded ⟨"Press RETURN to get started", "", "still no terminator"⟩
    (by decide)
  exact ⟨(h.1 (by decide)).1, (h.1 (by decide)).2.2 (by decide)⟩

/-- Claim C7 counterexample: in baseline-capture mode a malformed second line
aborts the batch, but the process does not exit non-zero as the claim states —
the `ValueError` handler only logs and control falls through to the monitoring
loop. -/
theorem malformed_baseline_no_exit_cex :
    (runBaselineLines (fun _ => some ["cfg"]) (fun _ => none)
      ["10.0.0.1:23,u,p,sw1", "bad"]).2 = CaptureEnd.fellThroughToMonitoring ∧
    CaptureEnd.fellThroughToMonitoring ≠ CaptureEnd.exited 1 :=
  ⟨by decide, by decide⟩

/-- Claim C7 (amended): a registry line with the wrong field count is handled
as two distinct policies — in monitoring mode the line is reported as
malformed and skipped, and processing continues with the remaining lines; in
baseline-capture mode it aborts the whole batch, but the process does not
exit: the error is only logged and control falls through to the monitoring
loop (only a missing registry file exits non-zero in capture mode). -/
theorem malformed_line_policies (fetch store : String → Option (List String))
    (bad : String) (rest : List String)
    (hbad : parseRegistryLine (rstripCRLF bad.data) = none) :
    runMonitorLines fetch store (bad :: rest) =
      (MonitorStep.malformedLine ⟨rstripCRLF bad.data⟩ ::
        (runMonitorLines fetch store rest).1,
        (runMonitorLines fetch store rest).2) ∧
    runBaselineLines fetch store (bad :: rest) =
      (store, CaptureEnd.fellThroughToMonitoring) ∧
    runBaselineMode fetch store none = (store, CaptureEnd.exited 1) := by
  refine ⟨?_, ?_, rfl⟩
  · rw [runMonitorLines, hbad]
  · rw [runBaselineLines, hbad]

/-- Witness for the amended C7 at a concrete malformed line. -/
theorem malformed_line_policies_witness :
    runBaselineLines (fun _ => some ["c"]) (fun _ => none) [",,"] =
      ((fun _ => none : String → Option (List String)),
        CaptureEnd.fellThroughToMonitoring) :=
  (malformed_line_policies (fun _ => some ["c"]) (fun _ => none) ",," [] (by decide)).2.1

/-- Claim C8 counterexample: the claimed round trip fails for a host address
that already contains a double underscore — replacing `:` by `__` and then
`__` by `:` does not give back the original string. -/
theorem hostkey_roundtrip_cex :
    replaceDUColon (replaceColonDU ("a__b" : String).data) ≠ ("a__b" : String).data := by
  decide

/-- Claim C8 (amended): for host address strings containing no underscore, the
filesystem-safe encoding round-trips (`:` to `__`, then `__` back to `:`
yields the original), and for host address strings containing no space the
dialable endpoint encoding round-trips (`:` to a space, then the space back to
`:`). -/
theorem hostkey_roundtrip (host : String) :
    ('_' ∉ host.data → replaceDUColon (replaceColonDU host.data) = host.data) ∧
    (' ' ∉ host.data → replaceSpaceColon (replaceColonSpace host.data) = host.data) :=
  ⟨fun h => colon_du_roundtrip h, fun h => colon_space_roundtrip h⟩

/-- Witness for the amended C8 at a concrete host:port identifier. -/
theorem hostkey_roundtrip_witness :
    replaceDUColon (replaceColonDU ("10.0.0.1:23" : String).data) =
      ("10.0.0.1:23" : String).data :=
  (hostkey_roundtrip "10.0.0.1:23").1 (by decide)

/-- Claim C9 (confirmed): when config retrieval fails (`getSwitchConfig`
returns `False`), `createSwitchBaseline` returns `False` without writing, so
the baseline store — including any previously stored baseline for that host —
is left unchanged. -/
theorem fetch_failure_leaves_store (fetch store : String → Option (List String))
    (host : String) (hfail : fetch host = none) :
    createSwitchBaseline fetch store host = (false, store) := by
  rw [createSwitchBaseline, hfail]

/-- Witness for C9: a failing fetch leaves a store that holds an old baseline
for the host exactly as it was. -/
theorem fetch_failure_leaves_store_witness :
    createSwitchBaseline (fun _ => none)
      (fun f => if f = baselineName "h:1" then some ["old"] else none) "h:1" =
    (false, fun f => if f = baselineName "h:1" then some ["old"] else none) :=
  fetch_failure_leaves_store (fun _ => none)
    (fun f => if f = baselineName "h:1" then some ["old"] else none) "h:1" rfl

/-- Helper for C10: when every registry line parses, the capture loop runs to
the end and finishes with `sys.exit(1)`. -/
theorem runBaselineLines_all_parsed (fetch : String → Option (List String)) :
    ∀ (lines : List String) (store : String → Option (List String)),
      (∀ l ∈ lines, (parseRegistryLine (rstripCRLF l.data)).isSome = true) →
      (runBaselineLines fetch store lines).2 = CaptureEnd.exited 1 := by
  intro lines
  induction lines with
  | nil => intro store _; rfl
  | cons l ls ih =>
    intro store hall
    cases hp : parseRegistryLine (rstripCRLF l.data) with
    | none =>
      have := hall l (List.mem_cons_self l ls)
      rw [hp] at this
      simp at this
    | some rec =>
      rw [runBaselineLines, hp]
      exact ih _ (fun x hx => hall x (List.mem_cons_of_mem l hx))

/-- Claim C10 (confirmed): a fully successful baseline-capture run — every
line parses and every fetch succeeds — terminates with `sys.exit(1)`, a
non-zero status, the same exit code the fatal missing-registry-file path
uses, so the two are indistinguishable by exit status. -/
theorem baseline_success_exit_one (fetch store : String → Option (List String))
    (lines : List String)
    (hall : ∀ l ∈ lines, (parseRegistryLine (rstripCRLF l.data)).isSome = true)
    (_hcreate : ∀ l ∈ lines,
      ((parseRegistryLine (rstripCRLF l.data)).all
        fun rec => (fetch rec.address).isSome) = true) :
    (runBaselineMode fetch store (some lines)).2 = CaptureEnd.exited 1 ∧
    (1 : Nat) ≠ 0 ∧
    (runBaselineMode fetch store none).2 = CaptureEnd.exited 1 :=
  ⟨runBaselineLines_all_parsed fetch lines store hall, by decide, rfl⟩

/-- Witness for C10 at a concrete fully successful one-host capture run. -/
theorem baseline_success_exit_one_witness :
    (runBaselineMode (fun _ => some ["cfg"]) (fun _ => none)
      (some ["10.0.0.1:23,u,p,sw1"])).2 = CaptureEnd.exited 1 :=
  (baseline_success_exit_one (fun _ => some ["cfg"]) (fun _ => none)
    ["10.0.0.1:23,u,p,sw1"] (by decide) (by decide)).1

end NetworkWitness

